import Mathlib

/-
Verification of the nameko-devex order gateway and order service.

The gateway code is embedded from src/gateway/gateway/service.py.
The orders service and its store are not part of the provided sources
(only their interface tests are), so they are modelled from the spec
(sections 4.1 and 4.2) and cross-checked against the interface tests
in src/orders/test/interface/test_service.py.

Remote calls are modelled as pure lookups against explicit state:
the product catalog is a list of products, the order store an explicit
state record threaded through the operations.  Python exceptions are
modelled with an `Except` monad; Python's integer floor division, which
raises `ZeroDivisionError` on a zero divisor, is embedded as a fallible
operation.
-/

set_option autoImplicit false
set_option linter.unusedVariables false

namespace NamekoDevex

/-- A Python exception observable from the embedded code. -/
inductive PyExc where
  | ProductNotFound (msg : String)
  | OrderNotFound (msg : String)
  | ZeroDivisionError
  deriving DecidableEq, Repr

instance exceptDecEq {ε α : Type} [DecidableEq ε] [DecidableEq α] :
    DecidableEq (Except ε α)
  | .error e1, .error e2 =>
    if h : e1 = e2 then .isTrue (by rw [h])
    else .isFalse (by intro hc; cases hc; exact h rfl)
  | .error e1, .ok a2 => .isFalse (by intro hc; cases hc)
  | .ok a1, .error e2 => .isFalse (by intro hc; cases hc)
  | .ok a1, .ok a2 =>
    if h : a1 = a2 then .isTrue (by rw [h])
    else .isFalse (by intro hc; cases hc; exact h rfl)

/-- A product record as served by the products service. -/
structure Product where
  id : String
  title : String
  passenger_capacity : Int
  maximum_speed : Int
  in_stock : Int
  deriving DecidableEq, Repr

/-- One line of an order submission (price already normalized to a
fixed-point string by the schema). -/
structure SubmittedDetail where
  product_id : String
  price : String
  quantity : Int
  deriving DecidableEq, Repr

/-- A persisted order detail line, with its generated id. -/
structure OrderDetail where
  id : Int
  product_id : String
  price : String
  quantity : Int
  deriving DecidableEq, Repr

/-- A persisted order: generated integer id plus detail lines in
insertion order. -/
structure Order where
  id : Int
  order_details : List OrderDetail
  deriving DecidableEq, Repr

/-- The catalog held by the external products service. -/
abbrev Catalog := List Product

/-- Modelled from the spec (section 4.3): products service `get`,
failing with ProductNotFound when the id is absent. -/
def products_get (c : Catalog) (product_id : String) : Except PyExc Product :=
  match c.find? (fun p => p.id == product_id) with
  | some p => .ok p
  | none => .error (.ProductNotFound ("Product with id " ++ product_id ++ " not found"))

/-- Modelled from the spec (section 4.3): products service batch `list`,
returning only the products that exist among the requested ids. -/
def products_list (c : Catalog) (ids : List String) : List Product :=
  ids.filterMap (fun i => c.find? (fun p => p.id == i))

/-- Modelled from the spec (section 4.1): the state of the order store.
Orders are kept in creation order; order ids and detail ids are drawn
from ascending counters, mirroring the database autoincrement columns. -/
structure OrdersState where
  orders : List Order
  next_order_id : Int
  next_detail_id : Int
  deriving DecidableEq, Repr

/-- The state of a freshly created (empty) order store: both id
counters start at 1, as the interface tests exhibit. -/
def initialState : OrdersState := ⟨[], 1, 1⟩

/-- Assign generated ids to submitted detail lines, consecutively from
`start`, preserving submission order. -/
def assignIds (start : Int) : List SubmittedDetail → List OrderDetail
  | [] => []
  | d :: rest => ⟨start, d.product_id, d.price, d.quantity⟩ :: assignIds (start + 1) rest

/-- Modelled from the spec (section 4.2): orders service `create_order`.
Persists the order with generated ids and publishes a single
`order_created` event carrying the serialized order.  Returns the new
state, the persisted order and the list of published events. -/
def orders_create_order (s : OrdersState) (details : List SubmittedDetail) :
    OrdersState × Order × List (String × Order) :=
  let order : Order := ⟨s.next_order_id, assignIds s.next_detail_id details⟩
  (⟨s.orders ++ [order], s.next_order_id + 1, s.next_detail_id + details.length⟩,
   order,
   [("order_created", order)])

/-- Modelled from the spec (section 4.2): orders service `get_order`,
failing with the caller-facing OrderNotFound message when absent. -/
def orders_get_order (s : OrdersState) (order_id : Int) : Except PyExc Order :=
  match s.orders.find? (fun o => o.id == order_id) with
  | some o => .ok o
  | none => .error (.OrderNotFound ("Order with id " ++ toString order_id ++ " not found"))

/-- Modelled from the spec (section 4.1): order store `list`, skipping
`skip` rows of the creation-ordered sequence and capping at `limit`. -/
def order_store_list (s : OrdersState) (skip limit : Nat) : List Order :=
  (s.orders.drop skip).take limit

/-- Modelled from the spec (section 4.2): orders service `list_orders`,
with skip and limit defaulting to 0 and 50 when the caller omits them. -/
def orders_list_orders (s : OrdersState) (skip limit : Option Nat) : List Order :=
  order_store_list s (skip.getD 0) (limit.getD 50)

/-- Orders service `list_orders` as invoked over RPC by the gateway,
which always passes both arguments (nonnegative in every reachable
call). -/
def orders_list_orders_rpc (s : OrdersState) (skip limit : Int) : List Order :=
  order_store_list s skip.toNat limit.toNat

/-- Modelled from the spec (section 4.2): orders service `count_orders`. -/
def orders_count (s : OrdersState) : Int :=
  s.orders.length

/-- Python integer floor division `a // b`, which raises
ZeroDivisionError when `b = 0`. -/
def pyFloorDiv (a b : Int) : Except PyExc Int :=
  if b = 0 then .error .ZeroDivisionError else .ok (a.fdiv b)

/-- GatewayService.calculate_total_pages:
`(total_orders + limit - 1) // limit`. -/
def calculate_total_pages (total_orders limit : Int) : Except PyExc Int :=
  pyFloorDiv (total_orders + limit - 1) limit

/-- An order detail line after gateway enrichment with the fetched
product and an image URL. -/
structure EnrichedDetail where
  id : Int
  product_id : String
  price : String
  quantity : Int
  product : Product
  image : String
  deriving DecidableEq, Repr

/-- An order as returned by the gateway views. -/
structure EnrichedOrder where
  id : Int
  order_details : List EnrichedDetail
  deriving DecidableEq, Repr

/-- The image URL derived for the single-order view:
`image_root + "/" + product_id + ".jpg"`. -/
def image_url (image_root product_id : String) : String :=
  image_root ++ "/" ++ product_id ++ ".jpg"

/-- The fixed placeholder image URL attached by the list view. -/
def placeholder_image : String := "https://picsum.photos/300"

/-- The enrichment loop of GatewayService._get_order: for each line in
order, fetch the product (failing fast on the first missing one) and
attach the derived image URL. -/
def enrich_details (c : Catalog) (image_root : String) :
    List OrderDetail → Except PyExc (List EnrichedDetail)
  | [] => .ok []
  | d :: rest =>
    match products_get c d.product_id with
    | .error e => .error e
    | .ok p =>
      match enrich_details c image_root rest with
      | .error e => .error e
      | .ok restE =>
        .ok (⟨d.id, d.product_id, d.price, d.quantity, p,
          image_url image_root d.product_id⟩ :: restE)

/-- GatewayService._get_order: fetch the order from the orders service
(propagating its error) and enrich every line item. -/
def gw_get_order (s : OrdersState) (c : Catalog) (image_root : String) (order_id : Int) :
    Except PyExc EnrichedOrder :=
  match orders_get_order s order_id with
  | .error e => .error e
  | .ok order =>
    match enrich_details c image_root order.order_details with
    | .error e => .error e
    | .ok items => .ok ⟨order.id, items⟩

/-- The enrichment loop of GatewayService.fetch_orders: fetch each
line's product individually and attach the fixed placeholder image. -/
def enrich_details_list_view (c : Catalog) :
    List OrderDetail → Except PyExc (List EnrichedDetail)
  | [] => .ok []
  | d :: rest =>
    match products_get c d.product_id with
    | .error e => .error e
    | .ok p =>
      match enrich_details_list_view c rest with
      | .error e => .error e
      | .ok restE =>
        .ok (⟨d.id, d.product_id, d.price, d.quantity, p, placeholder_image⟩ :: restE)

/-- The outer enrichment loop of GatewayService.fetch_orders over the
fetched page of orders. -/
def enrich_orders (c : Catalog) : List Order → Except PyExc (List EnrichedOrder)
  | [] => .ok []
  | o :: rest =>
    match enrich_details_list_view c o.order_details with
    | .error e => .error e
    | .ok items =>
      match enrich_orders c rest with
      | .error e => .error e
      | .ok restE => .ok (⟨o.id, items⟩ :: restE)

/-- The set of product ids mentioned by a page of orders, as built by
GatewayService.fetch_orders before its batch list call. -/
def collect_product_ids (orders : List Order) : List String :=
  ((orders.map (fun o => o.order_details.map (fun d => d.product_id))).flatten).dedup

/-- GatewayService.fetch_orders, parameterized by the batch products
list call (whose result the source binds to a local variable and never
uses). -/
def fetch_orders_with (listFn : List String → List Product) (s : OrdersState) (c : Catalog)
    (skip limit : Int) : Except PyExc (List EnrichedOrder) :=
  let orders := orders_list_orders_rpc s skip limit
  let product_ids := collect_product_ids orders
  let _products := listFn product_ids
  enrich_orders c orders

/-- GatewayService.fetch_orders as written: the batch call goes to the
products service. -/
def fetch_orders (s : OrdersState) (c : Catalog) (skip limit : Int) :
    Except PyExc (List EnrichedOrder) :=
  fetch_orders_with (products_list c) s c skip limit

/-- Spec-side variant of fetch_orders omitting the batch products list
call, following the spec design note that the validation fetch may be
skipped as long as per-item enrichment is kept. -/
def fetch_orders_no_batch (s : OrdersState) (c : Catalog) (skip limit : Int) :
    Except PyExc (List EnrichedOrder) :=
  enrich_orders c (orders_list_orders_rpc s skip limit)

/-- The paginated list envelope returned by GatewayService._list_orders:
exactly the four fields of the response dict. -/
structure ListResponse where
  total_orders : Int
  total_pages : Int
  page : Int
  orders : List EnrichedOrder
  deriving DecidableEq, Repr

/-- GatewayService._list_orders: compute skip, fetch the page, count
orders, compute total pages, assemble the envelope. -/
def gw_list_orders (s : OrdersState) (c : Catalog) (page limit : Int) :
    Except PyExc ListResponse :=
  let skip := (page - 1) * limit
  match fetch_orders s c skip limit with
  | .error e => .error e
  | .ok orders =>
    let total_orders := orders_count s
    match calculate_total_pages total_orders limit with
    | .error e => .error e
    | .ok total_pages => .ok ⟨total_orders, total_pages, page, orders⟩

/-- GatewayService.list_orders route handler: page and limit are read
from the query string with defaults 1 and 50 when absent, unvalidated. -/
def list_orders_route (s : OrdersState) (c : Catalog) (pageArg limitArg : Option Int) :
    Except PyExc ListResponse :=
  gw_list_orders s c (pageArg.getD 1) (limitArg.getD 50)

/-- The validation loop of GatewayService._create_order: walk the
submitted details in order and raise ProductNotFound for the first one
whose product id is not among the valid ids. -/
def check_order_details (valid_product_ids : List String) :
    List SubmittedDetail → Except PyExc Unit
  | [] => .ok ()
  | d :: rest =>
    if d.product_id ∈ valid_product_ids then check_order_details valid_product_ids rest
    else .error (.ProductNotFound ("Product Id " ++ d.product_id))

/-- GatewayService._create_order: collect the submitted product ids,
batch-list them from the products service, validate each line against
the returned ids, then create the order in the orders service.  Returns
the outcome together with the resulting order-store state. -/
def gw_create_order (s : OrdersState) (c : Catalog) (order_details : List SubmittedDetail) :
    Except PyExc Int × OrdersState :=
  let product_ids := order_details.map (fun d => d.product_id)
  let valid_product_ids := (products_list c product_ids).map (fun p => p.id)
  match check_order_details valid_product_ids order_details with
  | .error e => (.error e, s)
  | .ok _ =>
    let r := orders_create_order s order_details
    (.ok r.2.1.id, r.1)

/-- A sample product mirroring the gateway docstring example. -/
def demoProduct : Product := ⟨"the_odyssey", "The Odyssey", 101, 5, 10⟩

/-- A one-product catalog used in concrete evaluations. -/
def demoCatalog : Catalog := [demoProduct]

/-- A persisted sample order. -/
def demoOrder : Order := ⟨1, [⟨1, "the_odyssey", "99.99", 1⟩]⟩

/-- A second persisted sample order. -/
def demoOrder2 : Order := ⟨2, [⟨2, "the_enigma", "5.99", 2⟩]⟩

/-- An order store holding one order. -/
def demoState : OrdersState := ⟨[demoOrder], 2, 2⟩

/-- An order store holding two orders. -/
def demoState2 : OrdersState := ⟨[demoOrder, demoOrder2], 3, 3⟩

/-- An order submission whose second line names a product absent from
demoCatalog. -/
def demoSubmitted : List SubmittedDetail :=
  [⟨"the_odyssey", "99.99", 1⟩, ⟨"the_enigma", "5.99", 2⟩]

theorem assignIds_map_product_id (start : Int) (l : List SubmittedDetail) :
    (assignIds start l).map (fun d => d.product_id) = l.map (fun d => d.product_id) := by
  induction l generalizing start with
  | nil => rfl
  | cons d rest ih => simp [assignIds, ih]

theorem assignIds_map_price (start : Int) (l : List SubmittedDetail) :
    (assignIds start l).map (fun d => d.price) = l.map (fun d => d.price) := by
  induction l generalizing start with
  | nil => rfl
  | cons d rest ih => simp [assignIds, ih]

theorem assignIds_map_quantity (start : Int) (l : List SubmittedDetail) :
    (assignIds start l).map (fun d => d.quantity) = l.map (fun d => d.quantity) := by
  induction l generalizing start with
  | nil => rfl
  | cons d rest ih => simp [assignIds, ih]

theorem assignIds_map_id (start : Int) (l : List SubmittedDetail) :
    (assignIds start l).map (fun d => d.id) =
      (List.range l.length).map (fun n : Nat => start + (n : Int)) := by
  induction l generalizing start with
  | nil => rfl
  | cons d rest ih =>
    rw [assignIds, List.map_cons, ih, List.length_cons, List.range_succ_eq_map,
      List.map_cons, List.map_map]
    refine List.cons_eq_cons.mpr ⟨by simp, List.map_congr_left ?_⟩
    intro n hn
    simp only [Function.comp, Nat.succ_eq_add_one]
    push_cast
    ring

/-- C3: every successful create_order in the order service publishes
exactly one order_created event whose payload is the persisted order
(its id and its detail rows in insertion order, prices kept as
fixed-point strings), with detail ids generated from 1 and
incrementing on a fresh store. -/
theorem C3_create_order_event (details : List SubmittedDetail) :
    (orders_create_order initialState details).2.2 =
      [("order_created", (orders_create_order initialState details).2.1)] ∧
    (orders_create_order initialState details).1.orders =
      [(orders_create_order initialState details).2.1] ∧
    (orders_create_order initialState details).2.1.id = 1 ∧
    (orders_create_order initialState details).2.1.order_details.map (fun d => d.id) =
      (List.range details.length).map (fun n : Nat => (1 : Int) + (n : Int)) ∧
    (orders_create_order initialState details).2.1.order_details.map (fun d => d.product_id) =
      details.map (fun d => d.product_id) ∧
    (orders_create_order initialState details).2.1.order_details.map (fun d => d.price) =
      details.map (fun d => d.price) ∧
    (orders_create_order initialState details).2.1.order_details.map (fun d => d.quantity) =
      details.map (fun d => d.quantity) := by
  refine ⟨rfl, rfl, rfl, ?_, ?_, ?_, ?_⟩ <;>
    simp [orders_create_order, initialState, assignIds_map_id, assignIds_map_product_id,
      assignIds_map_price, assignIds_map_quantity]

/-- C7: the order store list returns at most limit orders, keeps the
creation (ascending id) order, returns the element at offset skip + i
at position i, is empty when skip reaches the stored count, and the
service defaults skip and limit to 0 and 50. -/
theorem C7_store_list (s : OrdersState) (skip limit i : Nat)
    (hsorted : s.orders.Pairwise (fun a b => a.id < b.id)) :
    (order_store_list s skip limit).length ≤ limit ∧
    (order_store_list s skip limit).Pairwise (fun a b => a.id < b.id) ∧
    (i < limit → (order_store_list s skip limit)[i]? = s.orders[skip + i]?) ∧
    (s.orders.length ≤ skip → order_store_list s skip limit = []) ∧
    orders_list_orders s none none = order_store_list s 0 50 := by
  refine ⟨List.length_take_le _ _, ?_, ?_, ?_, rfl⟩
  · exact hsorted.sublist ((List.take_sublist _ _).trans (List.drop_sublist _ _))
  · intro hi
    rw [order_store_list, List.getElem?_take, if_pos hi, List.getElem?_drop]
  · intro hle
    rw [order_store_list, List.drop_eq_nil_of_le hle, List.take_nil]

/-- Witness for C7 on a two-order store with skip 2, limit 5. -/
theorem C7_witness :
    (order_store_list demoState2 2 5).length ≤ 5 ∧
    (order_store_list demoState2 2 5)[0]? = demoState2.orders[2 + 0]? ∧
    order_store_list demoState2 2 5 = [] ∧
    orders_list_orders demoState2 none none = order_store_list demoState2 0 50 := by
  have h := C7_store_list demoState2 2 5 0 (by decide)
  exact ⟨h.1, h.2.2.1 (by decide), h.2.2.2.1 (by decide), h.2.2.2.2⟩

theorem mem_valid_ids_iff (c : Catalog) (ids : List String) (pid : String)
    (hpid : pid ∈ ids) :
    pid ∈ (products_list c ids).map (fun p => p.id) ↔
      (c.find? (fun p => p.id == pid)).isSome := by
  constructor
  · intro h
    rcases List.mem_map.mp h with ⟨p, hp, hid⟩
    rw [products_list] at hp
    rcases List.mem_filterMap.mp hp with ⟨i, hi, hfind⟩
    have hb := List.find?_some hfind
    have hpi : p.id = i := by simpa using hb
    rw [← hid, hpi, hfind]
    rfl
  · intro h
    rcases Option.isSome_iff_exists.mp h with ⟨p, hp⟩
    have hb := List.find?_some hp
    have hpi : p.id = pid := by simpa using hb
    refine List.mem_map.mpr ⟨p, ?_, hpi⟩
    rw [products_list]
    exact List.mem_filterMap.mpr ⟨pid, hpid, hp⟩

theorem check_order_details_eq_find (c : Catalog) (details : List SubmittedDetail)
    (l : List SubmittedDetail) (hsub : ∀ x ∈ l, x ∈ details) :
    check_order_details
        ((products_list c (details.map (fun d => d.product_id))).map (fun p => p.id)) l =
      match l.find? (fun d => (c.find? (fun p => p.id == d.product_id)).isNone) with
      | some d => .error (.ProductNotFound ("Product Id " ++ d.product_id))
      | none => .ok () := by
  induction l with
  | nil => rfl
  | cons d rest ih =>
    have hd : d.product_id ∈ details.map (fun x => x.product_id) :=
      List.mem_map.mpr ⟨d, hsub d (List.mem_cons_self _ _), rfl⟩
    cases hopt : c.find? (fun p => p.id == d.product_id) with
    | none =>
      have hnotmem :
          d.product_id ∉
            (products_list c (details.map (fun x => x.product_id))).map (fun p => p.id) := by
        rw [mem_valid_ids_iff c _ _ hd, hopt]
        simp
      simp only [check_order_details, if_neg hnotmem, List.find?_cons, hopt,
        Option.isNone_none]
    | some p =>
      have hmem :
          d.product_id ∈
            (products_list c (details.map (fun x => x.product_id))).map (fun p => p.id) := by
        rw [mem_valid_ids_iff c _ _ hd, hopt]
        rfl
      simp only [check_order_details, if_pos hmem, List.find?_cons, hopt,
        Option.isNone_some]
      exact ih (fun x hx => hsub x (List.mem_cons_of_mem _ hx))

/-- C2: when the submission contains a product id absent from the
product service, the gateway _create_order fails with ProductNotFound
naming the first missing id in submission order, the order store is
left untouched and count_orders is unchanged. -/
theorem C2_create_order_first_missing (c : Catalog) (s : OrdersState)
    (details : List SubmittedDetail) (d : SubmittedDetail)
    (hfirst : details.find?
        (fun d0 => (c.find? (fun p => p.id == d0.product_id)).isNone) = some d) :
    gw_create_order s c details =
      (.error (.ProductNotFound ("Product Id " ++ d.product_id)), s) ∧
    orders_count (gw_create_order s c details).2 = orders_count s := by
  have hcheck := check_order_details_eq_find c details details (fun x hx => hx)
  rw [hfirst] at hcheck
  have hmain : gw_create_order s c details =
      (.error (.ProductNotFound ("Product Id " ++ d.product_id)), s) := by
    simp only [gw_create_order]
    rw [hcheck]
  exact ⟨hmain, by rw [hmain]⟩

/-- Witness for C2: submitting the_odyssey (present) and the_enigma
(absent) fails naming the_enigma and leaves the store empty. -/
theorem C2_witness :
    gw_create_order initialState demoCatalog demoSubmitted =
      (.error (.ProductNotFound "Product Id the_enigma"), initialState) ∧
    orders_count (gw_create_order initialState demoCatalog demoSubmitted).2 =
      orders_count initialState :=
  C2_create_order_first_missing demoCatalog initialState demoSubmitted
    ⟨"the_enigma", "5.99", 2⟩ (by decide)

/-- C1: for every total_orders ≥ 0 and limit > 0, the gateway's
calculate_total_pages(total_orders, limit) equals the ceiling of
total_orders / limit. -/
theorem C1_total_pages_is_ceil (total_orders limit : Int)
    (h0 : 0 ≤ total_orders) (h1 : 0 < limit) :
    calculate_total_pages total_orders limit = .ok ⌈(total_orders : ℚ) / (limit : ℚ)⌉ := by
  have hl : limit ≠ 0 := ne_of_gt h1
  have hq : (0 : ℚ) < (limit : ℚ) := by exact_mod_cast h1
  have hdm := Int.ediv_add_emod (total_orders + limit - 1) limit
  have hmod := Int.emod_nonneg (total_orders + limit - 1) hl
  have hmodlt := Int.emod_lt_of_pos (total_orders + limit - 1) h1
  have hceil : ⌈(total_orders : ℚ) / (limit : ℚ)⌉ = (total_orders + limit - 1) / limit := by
    rw [Int.ceil_eq_iff]
    constructor
    · rw [lt_div_iff₀ hq]
      have key : ((total_orders + limit - 1) / limit - 1) * limit < total_orders := by
        nlinarith
      exact_mod_cast key
    · rw [div_le_iff₀ hq]
      have key : total_orders ≤ ((total_orders + limit - 1) / limit) * limit := by
        nlinarith
      exact_mod_cast key
  simp only [calculate_total_pages, pyFloorDiv, if_neg hl, hceil,
    Int.fdiv_eq_ediv _ (le_of_lt h1)]

/-- Witness for C1 at total_orders = 6 and limit = 5: two pages. -/
theorem C1_witness : calculate_total_pages 6 5 = .ok 2 := by
  have h := C1_total_pages_is_ceil 6 5 (by norm_num) (by norm_num)
  have hc : ⌈((6 : Int) : ℚ) / ((5 : Int) : ℚ)⌉ = (2 : Int) := by
    rw [Int.ceil_eq_iff]
    push_cast
    norm_num
  rw [h, hc]

/-- C6: for every id with no matching order, the orders service
get_order fails with OrderNotFound carrying exactly the message
"Order with id ⟨id⟩ not found". -/
theorem C6_get_order_not_found_message (s : OrdersState) (order_id : Int)
    (h : s.orders.find? (fun o => o.id == order_id) = none) :
    orders_get_order s order_id =
      .error (.OrderNotFound ("Order with id " ++ toString order_id ++ " not found")) := by
  simp [orders_get_order, h]

/-- Witness for C6: id 1 on the empty store yields the message
"Order with id 1 not found". -/
theorem C6_witness :
    orders_get_order initialState 1 = .error (.OrderNotFound "Order with id 1 not found") :=
  C6_get_order_not_found_message initialState 1 rfl

/-- C9: the batch products list call inside fetch_orders does not
affect the returned result: for every return value of the batch call,
fetch_orders produces the same output as the variant that omits the
call while keeping per-item enrichment. -/
theorem C9_batch_list_irrelevant (listFn : List String → List Product)
    (s : OrdersState) (c : Catalog) (skip limit : Int) :
    fetch_orders_with listFn s c skip limit = fetch_orders_no_batch s c skip limit ∧
    fetch_orders s c skip limit = fetch_orders_no_batch s c skip limit :=
  ⟨rfl, rfl⟩

/-- C10: under the precondition limit ≠ 0 the division in
calculate_total_pages is well-defined, but a list request with
limit = 0, accepted unvalidated, hits a division by zero instead of
producing an error response. -/
theorem C10_unguarded_division (s : OrdersState) (c : Catalog)
    (page total_orders limit : Int) (h : limit ≠ 0) :
    calculate_total_pages total_orders limit = .ok ((total_orders + limit - 1).fdiv limit) ∧
    list_orders_route s c (some page) (some 0) = .error .ZeroDivisionError := by
  constructor
  · simp [calculate_total_pages, pyFloorDiv, h]
  · simp [list_orders_route, gw_list_orders, fetch_orders, fetch_orders_with,
      orders_list_orders_rpc, order_store_list, enrich_orders,
      calculate_total_pages, pyFloorDiv, orders_count, Bind.bind, Except.bind]

/-- Witness for C10: limit 5 divides fine, limit 0 raises. -/
theorem C10_witness :
    calculate_total_pages 6 5 = .ok (((6 : Int) + 5 - 1).fdiv 5) ∧
    list_orders_route initialState ([] : Catalog) (some 1) (some 0) =
      .error .ZeroDivisionError :=
  C10_unguarded_division initialState ([] : Catalog) 1 6 5 (by decide)

theorem enrich_details_ok (c : Catalog) (root : String) (l : List OrderDetail)
    (el : List EnrichedDetail) (h : enrich_details c root l = .ok el) :
    el.map (fun e => e.id) = l.map (fun d => d.id) ∧
    el.map (fun e => e.product_id) = l.map (fun d => d.product_id) ∧
    el.map (fun e => e.price) = l.map (fun d => d.price) ∧
    el.map (fun e => e.quantity) = l.map (fun d => d.quantity) ∧
    ∀ e ∈ el, products_get c e.product_id = .ok e.product ∧
      e.image = image_url root e.product_id := by
  induction l generalizing el with
  | nil =>
    simp only [enrich_details] at h
    cases h
    simp
  | cons d rest ih =>
    simp only [enrich_details] at h
    cases hp : products_get c d.product_id with
    | error e => rw [hp] at h; cases h
    | ok p =>
      rw [hp] at h
      cases hr : enrich_details c root rest with
      | error e => rw [hr] at h; cases h
      | ok restE =>
        rw [hr] at h
        cases h
        obtain ⟨h1, h2, h3, h4, h5⟩ := ih restE hr
        refine ⟨by simp [h1], by simp [h2], by simp [h3], by simp [h4], ?_⟩
        intro e he
        rcases List.mem_cons.mp he with rfl | he2
        · exact ⟨hp, rfl⟩
        · exact h5 e he2

theorem enrich_details_total (c : Catalog) (root : String) (l : List OrderDetail)
    (hall : ∀ d ∈ l, (c.find? (fun p => p.id == d.product_id)).isSome = true) :
    ∃ el, enrich_details c root l = .ok el := by
  induction l with
  | nil => exact ⟨[], rfl⟩
  | cons d rest ih =>
    rcases Option.isSome_iff_exists.mp (hall d (List.mem_cons_self _ _)) with ⟨p, hp⟩
    rcases ih (fun x hx => hall x (List.mem_cons_of_mem _ hx)) with ⟨el, hel⟩
    exact ⟨⟨d.id, d.product_id, d.price, d.quantity, p, image_url root d.product_id⟩ :: el,
      by simp only [enrich_details, products_get, hp, hel]⟩

theorem enrich_details_fails (c : Catalog) (root : String) (l : List OrderDetail)
    (hmiss : ∃ d ∈ l, c.find? (fun p => p.id == d.product_id) = none) :
    ∃ msg, enrich_details c root l = .error (.ProductNotFound msg) := by
  induction l with
  | nil =>
    rcases hmiss with ⟨d, hd, -⟩
    cases hd
  | cons d rest ih =>
    cases hopt : c.find? (fun p => p.id == d.product_id) with
    | none =>
      exact ⟨"Product with id " ++ d.product_id ++ " not found",
        by simp only [enrich_details, products_get, hopt]⟩
    | some p =>
      have hrest : ∃ x ∈ rest, c.find? (fun q => q.id == x.product_id) = none := by
        rcases hmiss with ⟨x, hx, hnone⟩
        rcases List.mem_cons.mp hx with rfl | hx2
        · rw [hopt] at hnone; cases hnone
        · exact ⟨x, hx2, hnone⟩
      rcases ih hrest with ⟨msg, hmsg⟩
      exact ⟨msg, by simp only [enrich_details, products_get, hopt, hmsg]⟩

/-- C5: the single-order view returns the order with every line item
enriched with the product fetched for that line's product_id and an
image equal to image_root/product_id.jpg; it propagates the orders
service error when the order is absent and fails with ProductNotFound,
returning no data, when any line's product is missing. -/
theorem C5_get_order_view (s : OrdersState) (c : Catalog) (root : String) (oid : Int) :
    (∀ e, orders_get_order s oid = .error e → gw_get_order s c root oid = .error e) ∧
    (∀ order, orders_get_order s oid = .ok order →
      ((∀ d ∈ order.order_details,
          (c.find? (fun p => p.id == d.product_id)).isSome = true) →
        (gw_get_order s c root oid).isOk = true) ∧
      (∀ res, gw_get_order s c root oid = .ok res →
        res.id = order.id ∧
        res.order_details.map (fun e => e.id) =
          order.order_details.map (fun d => d.id) ∧
        res.order_details.map (fun e => e.product_id) =
          order.order_details.map (fun d => d.product_id) ∧
        res.order_details.map (fun e => e.price) =
          order.order_details.map (fun d => d.price) ∧
        res.order_details.map (fun e => e.quantity) =
          order.order_details.map (fun d => d.quantity) ∧
        ∀ e ∈ res.order_details, products_get c e.product_id = .ok e.product ∧
          e.image = image_url root e.product_id) ∧
      ((∃ d ∈ order.order_details, c.find? (fun p => p.id == d.product_id) = none) →
        ∃ msg, gw_get_order s c root oid = .error (.ProductNotFound msg))) := by
  constructor
  · intro e he
    simp only [gw_get_order, he]
  · intro order horder
    refine ⟨?_, ?_, ?_⟩
    · intro hall
      rcases enrich_details_total c root order.order_details hall with ⟨el, hel⟩
      simp only [gw_get_order, horder, hel]
      rfl
    · intro res hres
      simp only [gw_get_order, horder] at hres
      cases hel : enrich_details c root order.order_details with
      | error e => rw [hel] at hres; cases hres
      | ok el =>
        rw [hel] at hres
        cases hres
        obtain ⟨h1, h2, h3, h4, h5⟩ := enrich_details_ok c root _ el hel
        exact ⟨rfl, h1, h2, h3, h4, h5⟩
    · intro hmiss
      rcases enrich_details_fails c root order.order_details hmiss with ⟨msg, hmsg⟩
      exact ⟨msg, by simp only [gw_get_order, horder, hmsg]⟩

/-- Witness for C5: the demo order enriches successfully. -/
theorem C5_witness : (gw_get_order demoState demoCatalog "http://images" 1).isOk = true :=
  ((C5_get_order_view demoState demoCatalog "http://images" 1).2 demoOrder rfl).1
    (by decide)

theorem enrich_details_list_view_ok (c : Catalog) (l : List OrderDetail)
    (el : List EnrichedDetail) (h : enrich_details_list_view c l = .ok el) :
    ∀ e ∈ el, products_get c e.product_id = .ok e.product ∧
      e.image = placeholder_image := by
  induction l generalizing el with
  | nil =>
    simp only [enrich_details_list_view] at h
    cases h
    simp
  | cons d rest ih =>
    simp only [enrich_details_list_view] at h
    cases hp : products_get c d.product_id with
    | error e => rw [hp] at h; cases h
    | ok p =>
      rw [hp] at h
      cases hr : enrich_details_list_view c rest with
      | error e => rw [hr] at h; cases h
      | ok restE =>
        rw [hr] at h
        cases h
        intro e he
        rcases List.mem_cons.mp he with rfl | he2
        · exact ⟨hp, rfl⟩
        · exact ih restE hr e he2

theorem enrich_orders_ok (c : Catalog) (lo : List Order)
    (eos : List EnrichedOrder) (h : enrich_orders c lo = .ok eos) :
    ∀ eo ∈ eos, ∀ e ∈ eo.order_details,
      products_get c e.product_id = .ok e.product ∧
      e.image = placeholder_image := by
  induction lo generalizing eos with
  | nil =>
    simp only [enrich_orders] at h
    cases h
    simp
  | cons o rest ih =>
    simp only [enrich_orders] at h
    cases hi : enrich_details_list_view c o.order_details with
    | error e => rw [hi] at h; cases h
    | ok items =>
      rw [hi] at h
      cases hr : enrich_orders c rest with
      | error e => rw [hr] at h; cases h
      | ok restE =>
        rw [hr] at h
        cases h
        intro eo heo
        rcases List.mem_cons.mp heo with rfl | heo2
        · exact enrich_details_list_view_ok c o.order_details items hi
        · exact ih restE hr eo heo2

/-- C8: every line item returned by the list view carries the product
fetched individually for its product_id and the fixed external
placeholder image URL, which does not depend on the product id. -/
theorem C8_list_view_enrichment (s : OrdersState) (c : Catalog) (skip limit : Int)
    (eos : List EnrichedOrder) (h : fetch_orders s c skip limit = .ok eos) :
    ∀ eo ∈ eos, ∀ e ∈ eo.order_details,
      products_get c e.product_id = .ok e.product ∧
      e.image = placeholder_image :=
  enrich_orders_ok c (orders_list_orders_rpc s skip limit) eos h

/-- Witness for C8 on the one-order demo store. -/
theorem C8_witness :
    products_get demoCatalog "the_odyssey" = .ok demoProduct ∧
    ("https://picsum.photos/300" : String) = placeholder_image :=
  C8_list_view_enrichment demoState demoCatalog 0 50
    [⟨1, [⟨1, "the_odyssey", "99.99", 1, demoProduct, placeholder_image⟩]⟩] (by decide)
    ⟨1, [⟨1, "the_odyssey", "99.99", 1, demoProduct, placeholder_image⟩]⟩ (by simp)
    ⟨1, "the_odyssey", "99.99", 1, demoProduct, placeholder_image⟩ (by simp)

/-- C4: the gateway list endpoint requests orders with
skip = (page - 1) * limit and that same limit, defaults page and limit
to 1 and 50 when the query omits them, and returns exactly the
envelope fields total_orders, total_pages, page, orders with page
echoing the request. -/
theorem C4_list_envelope (s : OrdersState) (c : Catalog) (page limit : Int)
    (orders : List EnrichedOrder) (pages : Int)
    (hfetch : fetch_orders s c ((page - 1) * limit) limit = .ok orders)
    (hpages : calculate_total_pages (orders_count s) limit = .ok pages) :
    gw_list_orders s c page limit = .ok ⟨orders_count s, pages, page, orders⟩ ∧
    list_orders_route s c none none = gw_list_orders s c 1 50 := by
  constructor
  · simp only [gw_list_orders, hfetch, hpages]
  · rfl

/-- Witness for C4 on the one-order demo store at page 1, limit 50. -/
theorem C4_witness :
    gw_list_orders demoState demoCatalog 1 50 =
      .ok ⟨orders_count demoState, 1, 1,
        [⟨1, [⟨1, "the_odyssey", "99.99", 1, demoProduct, placeholder_image⟩]⟩]⟩ ∧
    list_orders_route demoState demoCatalog none none =
      gw_list_orders demoState demoCatalog 1 50 :=
  C4_list_envelope demoState demoCatalog 1 50
    [⟨1, [⟨1, "the_odyssey", "99.99", 1, demoProduct, placeholder_image⟩]⟩] 1
    (by decide) (by decide)

end NamekoDevex
